import Mathlib

/-!
Shallow embedding of the satellite segment repairer
(package repairer: SegmentRepairer.Repair, NewSegmentRepairer,
sliceToSet, createBucketID) together with the path helpers it uses.

External collaborators (metainfo service, overlay, orders service,
ECRepairer, the eestream redundancy-strategy library) are modelled as an
oracle environment Env recording the outcome of each call; the Repair
control flow itself is translated branch for branch from the source.
The result type additionally records ghost observations (which external
calls were reached, the FindStorageNodes request count, the computed
toRemove and repaired lists, the segment age, the pointer handed to a
successful UpdatePieces call) so that theorems can speak about effects.
-/

namespace Repairer

/-- One remote piece of a segment: pb.RemotePiece with its PieceNum
(int32), NodeId and Hash (both opaque, modelled as Nat). -/
structure RemotePiece where
  pieceNum : Int
  nodeId : Nat
  hash : Nat
  deriving DecidableEq, Repr

/-- The redundancy scheme carried by the pointer: pb.RedundancyScheme
fields MinReq, RepairThreshold, SuccessThreshold, Total (all int32). -/
structure Redundancy where
  minReq : Int
  repairThreshold : Int
  successThreshold : Int
  total : Int
  deriving DecidableEq, Repr

/-- Pointer type: pb.Pointer_REMOTE vs inline. -/
inductive PointerType where
  | inline
  | remote
  deriving DecidableEq, Repr

/-- The segment pointer fetched from metainfo; times are modelled as Int
instants, ExpirationDate.IsZero as Option.none. -/
structure Pointer where
  ptrType : PointerType
  expirationDate : Option Int
  creationDate : Int
  lastRepaired : Int
  repairCount : Int
  segmentSize : Int
  redundancy : Redundancy
  pieces : List RemotePiece
  deriving DecidableEq, Repr

/-- Outcome of metainfo.Get: not found, other error, or a pointer. -/
inductive GetPtrResult where
  | notFound
  | failed
  | ok (p : Pointer)
  deriving DecidableEq, Repr

/-- Outcome of overlay.GetMissingPieces: error, or the list of missing
piece numbers (Go slice of int32). -/
inductive MissingResult where
  | failed
  | ok (missing : List Int)
  deriving DecidableEq, Repr

/-- Error outcome of ECRepairer.Get: the dedicated irreparable error
(carrying piecesAvailable and piecesRequired) or any other error. -/
inductive ECGetErr where
  | irreparable (available required : Int)
  | otherErr
  deriving DecidableEq, Repr

/-- Outcome of ECRepairer.Repair: error, or the successfulNodes slice,
index i holding some (nodeId, hash at i) for an upload that succeeded
and Option.none where the slice entry is nil. -/
inductive ECRepairResult where
  | failed
  | ok (nodes : List (Option (Nat × Nat)))
  deriving DecidableEq, Repr

/-- Oracle environment: the outcome each external call would produce on
this repair attempt, plus the current time. -/
structure Env where
  now : Int
  getPointer : GetPtrResult
  redundancyOK : Bool
  optimalThreshold : Int
  getMissing : MissingResult
  getLimitsOK : Bool
  findNodesOK : Bool
  putLimitsOK : Bool
  ecGetErr : Option ECGetErr
  ecGetFailed : List RemotePiece
  ecRepair : ECRepairResult
  updateOK : Bool
  deriving DecidableEq, Repr

/-- Configuration stored in SegmentRepairer by NewSegmentRepairer. -/
structure RepairerConfig where
  multiplierOptimalThreshold : ℚ
  repairOverride : Int
  deriving DecidableEq, Repr

/-- NewSegmentRepairer: clamps a negative excessOptimalThreshold to 0 and
stores multiplierOptimalThreshold = 1 + excessOptimalThreshold. -/
def NewSegmentRepairer (excessOptimalThreshold : ℚ) (repairOverride : Int) :
    RepairerConfig :=
  { multiplierOptimalThreshold :=
      1 + (if excessOptimalThreshold < 0 then 0 else excessOptimalThreshold)
    repairOverride := repairOverride }

/-- Which external calls past the initial metainfo fetch and the
missing-piece query were made during the attempt. -/
structure Calls where
  getLimits : Bool
  findNodes : Bool
  putLimits : Bool
  ecGet : Bool
  ecRepair : Bool
  updatePieces : Bool
  deriving DecidableEq, Repr

/-- No call beyond the fetch and the missing-piece query. -/
def Calls.none : Calls := ⟨false, false, false, false, false, false⟩

/-- Reached CreateGetRepairOrderLimits only. -/
def Calls.upToGetLimits : Calls := ⟨true, false, false, false, false, false⟩

/-- Reached FindStorageNodesForRepair. -/
def Calls.upToFindNodes : Calls := ⟨true, true, false, false, false, false⟩

/-- Reached CreatePutRepairOrderLimits. -/
def Calls.upToPutLimits : Calls := ⟨true, true, true, false, false, false⟩

/-- Reached ec.Get. -/
def Calls.upToEcGet : Calls := ⟨true, true, true, true, false, false⟩

/-- Reached ec.Repair. -/
def Calls.upToEcRepair : Calls := ⟨true, true, true, true, true, false⟩

/-- Reached metainfo.UpdatePieces. -/
def Calls.upToUpdate : Calls := ⟨true, true, true, true, true, true⟩

/-- The error classes Repair can return, following the errs classes of
the source file; noErr is a nil error. -/
inductive RepairErr where
  | noErr
  | metainfoGet
  | invalidRepair
  | overlayQuery
  | orderLimit
  | irreparable (available required : Int)
  | reconstructFail
  | repairPut
  | metainfoPut
  deriving DecidableEq, Repr

/-- Monitoring classification of the attempt (repair_failed,
repair_partial, repair_success meters). -/
inductive RepairClass where
  | failed
  | incomplete
  | success
  deriving DecidableEq, Repr

/-- Result of a Repair call: the returned (shouldDelete, err) pair plus
ghost observations of the attempt. committed records the pointer passed
to UpdatePieces when that call was made and succeeded. -/
structure RepairResult where
  shouldDelete : Bool
  err : RepairErr
  calls : Calls
  requested : Option Int
  outcome : Option RepairClass
  toRemove : List RemotePiece
  repaired : List RemotePiece
  age : Option Int
  committed : Option Pointer
  deriving DecidableEq, Repr

/-- An early return carrying no ghost observations. -/
def RepairResult.exit (sd : Bool) (e : RepairErr) (c : Calls) : RepairResult :=
  ⟨sd, e, c, Option.none, Option.none, [], [], Option.none, Option.none⟩

/-- sliceToSet from the source: membership of a value in the slice. -/
def sliceToSet (slice : List Int) (value : Int) : Bool :=
  slice.contains value

/-- storj.SplitPath is strings.Split(path, slash): split a character
list at every slash, keeping empty components. -/
def splitOnSlash : List Char → List (List Char)
  | [] => [[]]
  | c :: rest =>
    let r := splitOnSlash rest
    if c = '/' then [] :: r
    else
      match r with
      | [] => [[c]]
      | h :: t => (c :: h) :: t

/-- storj.SplitPath on a path string. -/
def splitPath (p : String) : List String :=
  (splitOnSlash p.data).map (fun l => String.mk l)

/-- storj.JoinPaths of two components. -/
def joinPaths (a b : String) : String :=
  a ++ "/" ++ b

/-- createBucketID from the source: fewer than 3 path components is an
error, otherwise join components 0 and 2 (the middle one is skipped). -/
def createBucketID (p : String) : Option String :=
  let comps := splitPath p
  if comps.length < 3 then Option.none
  else some (joinPaths (comps.getD 0 "") (comps.getD 2 ""))

/-- ExpirationDate check: not zero and before now. -/
def isExpired (expiration : Option Int) (now : Int) : Bool :=
  match expiration with
  | Option.none => false
  | some t => t < now

/-- numHealthy = len(pieces) - len(missingPieces). -/
def numHealthyOf (pieces : List RemotePiece) (missing : List Int) : Int :=
  (pieces.length : Int) - (missing.length : Int)

/-- The effective repair threshold: a nonzero repairOverride takes
precedence over the scheme's RepairThreshold. -/
def effectiveThreshold (cfg : RepairerConfig) (r : Redundancy) : Int :=
  if cfg.repairOverride ≠ 0 then cfg.repairOverride else r.repairThreshold

/-- The pieces whose number is not in the missing set, in pointer order. -/
def healthyOf (pieces : List RemotePiece) (missing : List Int) :
    List RemotePiece :=
  pieces.filter (fun p => ! sliceToSet missing p.pieceNum)

/-- The pieces whose number is in the missing set, in pointer order. -/
def unhealthyOf (pieces : List RemotePiece) (missing : List Int) :
    List RemotePiece :=
  pieces.filter (fun p => sliceToSet missing p.pieceNum)

/-- Build repairedPieces from the successfulNodes slice: index i with a
non-nil node becomes a piece with PieceNum i carrying that node id and
the hash at i. -/
def mkRepaired (nodes : List (Option (Nat × Nat))) : List RemotePiece :=
  nodes.enum.filterMap fun e =>
    e.2.map fun nh => { pieceNum := (e.1 : Int), nodeId := nh.1, hash := nh.2 }

/-- The piece numbers of the repaired pieces (the repairedMap keys). -/
def repairedNums (repairedPieces : List RemotePiece) : List Int :=
  repairedPieces.map RemotePiece.pieceNum

/-- toRemove: on full success all unhealthy pieces, otherwise only the
unhealthy pieces whose number was actually re-uploaded; pieces that
failed hash verification during download are always appended. -/
def toRemoveOf (r : Redundancy) (healthyAfterRepair : Int)
    (unhealthyPieces repairedPieces failedPieces : List RemotePiece) :
    List RemotePiece :=
  (if healthyAfterRepair ≥ r.successThreshold then unhealthyPieces
   else unhealthyPieces.filter
     (fun p => (repairedNums repairedPieces).contains p.pieceNum))
  ++ failedPieces

/-- The switch on healthyAfterRepair feeding the repair_failed,
repair_partial and repair_success meters; it uses the scheme's own
thresholds, never the override. -/
def classify (healthyAfterRepair : Int) (r : Redundancy) : RepairClass :=
  if healthyAfterRepair ≤ r.repairThreshold then RepairClass.failed
  else if healthyAfterRepair < r.successThreshold then RepairClass.incomplete
  else RepairClass.success

/-- Segment age as the source computes it: since LastRepaired when
CreationDate is before it, else since CreationDate. -/
def segmentAgeOf (creationDate lastRepaired now : Int) : Int :=
  if creationDate < lastRepaired then now - lastRepaired
  else now - creationDate

/-- The transfer phase of Repair, entered after both order-limit calls
succeeded: ec.Get with its two error classes, ec.Repair, the outcome
classification, toRemove, the pointer bump and UpdatePieces. -/
def repairTransfer (env : Env) (pointer : Pointer)
    (healthyPieces unhealthyPieces : List RemotePiece)
    (requestCount : Int) : RepairResult :=
  match env.ecGetErr with
  | some (ECGetErr.irreparable a r) =>
    { RepairResult.exit true (RepairErr.irreparable a r) Calls.upToEcGet with
        requested := some requestCount }
  | some ECGetErr.otherErr =>
    { RepairResult.exit true RepairErr.reconstructFail Calls.upToEcGet with
        requested := some requestCount }
  | Option.none =>
    match env.ecRepair with
    | ECRepairResult.failed =>
      { RepairResult.exit false RepairErr.repairPut Calls.upToEcRepair with
          requested := some requestCount }
    | ECRepairResult.ok nodes =>
      let repairedPieces := mkRepaired nodes
      let healthyAfterRepair : Int :=
        (healthyPieces.length : Int) + (repairedPieces.length : Int)
      let outcome := classify healthyAfterRepair pointer.redundancy
      let toRemove := toRemoveOf pointer.redundancy healthyAfterRepair
        unhealthyPieces repairedPieces env.ecGetFailed
      let age := segmentAgeOf pointer.creationDate pointer.lastRepaired env.now
      let newPointer := { pointer with
        lastRepaired := env.now
        repairCount := pointer.repairCount + 1 }
      if env.updateOK then
        { shouldDelete := true, err := RepairErr.noErr
          calls := Calls.upToUpdate, requested := some requestCount
          outcome := some outcome, toRemove := toRemove
          repaired := repairedPieces, age := some age
          committed := some newPointer }
      else
        { shouldDelete := false, err := RepairErr.metainfoPut
          calls := Calls.upToUpdate, requested := some requestCount
          outcome := some outcome, toRemove := toRemove
          repaired := repairedPieces, age := some age
          committed := Option.none }

/-- The decision phase of Repair, entered with a fetched remote,
unexpired pointer and the missing-piece answer: the irreparable check,
the threshold check, the healthy and unhealthy partition, the bucket id,
both order-limit calls and the replacement-node request. -/
def repairDecide (cfg : RepairerConfig) (env : Env) (path : String)
    (pointer : Pointer) (missingPieces : List Int) : RepairResult :=
  let numHealthy := numHealthyOf pointer.pieces missingPieces
  if numHealthy < pointer.redundancy.minReq then
    RepairResult.exit true
      (RepairErr.irreparable numHealthy pointer.redundancy.minReq) Calls.none
  else if numHealthy > effectiveThreshold cfg pointer.redundancy then
    RepairResult.exit true RepairErr.noErr Calls.none
  else
    let healthyPieces := healthyOf pointer.pieces missingPieces
    let unhealthyPieces := unhealthyOf pointer.pieces missingPieces
    match createBucketID path with
    | Option.none => RepairResult.exit true RepairErr.invalidRepair Calls.none
    | some _ =>
      if env.getLimitsOK = false then
        RepairResult.exit false RepairErr.orderLimit Calls.upToGetLimits
      else
        let requestCount : Int :=
          ⌈(env.optimalThreshold : ℚ) * cfg.multiplierOptimalThreshold⌉
            - (healthyPieces.length : Int)
        if env.findNodesOK = false then
          { RepairResult.exit false RepairErr.overlayQuery Calls.upToFindNodes
              with requested := some requestCount }
        else if env.putLimitsOK = false then
          { RepairResult.exit false RepairErr.orderLimit Calls.upToPutLimits
              with requested := some requestCount }
        else
          repairTransfer env pointer healthyPieces unhealthyPieces requestCount

/-- SegmentRepairer.Repair: fetch the pointer, reject inline and expired
segments, build the redundancy strategy, query the missing pieces, then
run the decision and transfer phases. -/
def repair (cfg : RepairerConfig) (env : Env) (path : String) : RepairResult :=
  match env.getPointer with
  | GetPtrResult.notFound => RepairResult.exit true RepairErr.noErr Calls.none
  | GetPtrResult.failed =>
    RepairResult.exit false RepairErr.metainfoGet Calls.none
  | GetPtrResult.ok pointer =>
    if pointer.ptrType ≠ PointerType.remote then
      RepairResult.exit true RepairErr.invalidRepair Calls.none
    else if isExpired pointer.expirationDate env.now then
      RepairResult.exit true RepairErr.noErr Calls.none
    else if env.redundancyOK = false then
      RepairResult.exit true RepairErr.invalidRepair Calls.none
    else
      match env.getMissing with
      | MissingResult.failed =>
        RepairResult.exit false RepairErr.overlayQuery Calls.none
      | MissingResult.ok missingPieces =>
        repairDecide cfg env path pointer missingPieces


/-! ### Stage reduction lemmas -/

/-- With a fetched remote, unexpired pointer, a valid redundancy
strategy and a successful missing-piece query, Repair runs its decision
phase. -/
theorem repair_reach_decide (cfg : RepairerConfig) (env : Env) (path : String)
    (ptr : Pointer) (missing : List Int)
    (h1 : env.getPointer = GetPtrResult.ok ptr)
    (h2 : ptr.ptrType = PointerType.remote)
    (h3 : isExpired ptr.expirationDate env.now = false)
    (h4 : env.redundancyOK = true)
    (h5 : env.getMissing = MissingResult.ok missing) :
    repair cfg env path = repairDecide cfg env path ptr missing := by
  unfold repair
  rw [h1]
  simp [h2, h3, h4, h5]

/-- With the irreparable and unnecessary checks passed, a well-formed
path and both order-limit calls succeeding, the decision phase hands
over to the transfer phase with the computed request count. -/
theorem decide_reach_transfer (cfg : RepairerConfig) (env : Env)
    (path : String) (ptr : Pointer) (missing : List Int) (b : String)
    (h6 : ¬ (numHealthyOf ptr.pieces missing < ptr.redundancy.minReq))
    (h7 : ¬ (numHealthyOf ptr.pieces missing >
      effectiveThreshold cfg ptr.redundancy))
    (h8 : createBucketID path = some b)
    (h9 : env.getLimitsOK = true)
    (h10 : env.findNodesOK = true)
    (h11 : env.putLimitsOK = true) :
    repairDecide cfg env path ptr missing =
      repairTransfer env ptr (healthyOf ptr.pieces missing)
        (unhealthyOf ptr.pieces missing)
        (⌈(env.optimalThreshold : ℚ) * cfg.multiplierOptimalThreshold⌉
          - ((healthyOf ptr.pieces missing).length : Int)) := by
  unfold repairDecide
  rw [h8]
  simp [h6, h7, h9, h10, h11]

/-! ### Concrete fixtures used by witnesses and counterexamples -/

/-- A repairer with no excess factor and no override. -/
def cfg0 : RepairerConfig := NewSegmentRepairer 0 0

/-- Three pieces numbered 0, 1, 2. -/
def piecesA : List RemotePiece :=
  [⟨0, 10, 100⟩, ⟨1, 11, 101⟩, ⟨2, 12, 102⟩]

/-- A remote, unexpired pointer with scheme min 1, repair 2, success 3,
total 3. -/
def ptr0 : Pointer :=
  { ptrType := PointerType.remote, expirationDate := Option.none,
    creationDate := 5, lastRepaired := 2, repairCount := 4, segmentSize := 64,
    redundancy := ⟨1, 2, 3, 3⟩, pieces := piecesA }

/-- An environment where every external call succeeds, piece 0 is
missing, and the upload of replacement piece 0 succeeds. -/
def envBase : Env :=
  { now := 50, getPointer := GetPtrResult.ok ptr0, redundancyOK := true,
    optimalThreshold := 3, getMissing := MissingResult.ok [0],
    getLimitsOK := true, findNodesOK := true, putLimitsOK := true,
    ecGetErr := Option.none, ecGetFailed := [],
    ecRepair := ECRepairResult.ok [some (20, 200), Option.none, Option.none],
    updateOK := true }

/-! ### C1 -/

/-- C1 (amended): for a fetched remote unexpired pointer whose
numHealthy is at least minRequired and strictly exceeds the effective
repair threshold, Repair returns (true, nil) and makes no call beyond
the fetch and the missing-piece query. -/
theorem repair_unnecessary_above_threshold (cfg : RepairerConfig) (env : Env)
    (path : String) (ptr : Pointer) (missing : List Int)
    (h1 : env.getPointer = GetPtrResult.ok ptr)
    (h2 : ptr.ptrType = PointerType.remote)
    (h3 : isExpired ptr.expirationDate env.now = false)
    (h4 : env.redundancyOK = true)
    (h5 : env.getMissing = MissingResult.ok missing)
    (h6 : ¬ (numHealthyOf ptr.pieces missing < ptr.redundancy.minReq))
    (h7 : numHealthyOf ptr.pieces missing >
      effectiveThreshold cfg ptr.redundancy) :
    repair cfg env path = RepairResult.exit true RepairErr.noErr Calls.none := by
  rw [repair_reach_decide cfg env path ptr missing h1 h2 h3 h4 h5]
  unfold repairDecide
  simp [h6, h7]

/-- An environment identical to envBase except that the download
order-limit call fails, exposing that the call is made at all. -/
def envC1 : Env := { envBase with getLimitsOK := false }

/-- C1 counterexample: with numHealthy equal to the effective repair
threshold (so numHealthy is at least the threshold), Repair does not
return (true, nil) with no further calls: it proceeds to the download
order-limit call. -/
theorem repair_at_threshold_counterexample :
    numHealthyOf ptr0.pieces [0] = effectiveThreshold cfg0 ptr0.redundancy ∧
    ¬ ((repair cfg0 envC1 "a/b/c").shouldDelete = true ∧
       (repair cfg0 envC1 "a/b/c").err = RepairErr.noErr ∧
       (repair cfg0 envC1 "a/b/c").calls = Calls.none) := by decide

/-- An environment where piece 0 is present again, so numHealthy is 3. -/
def envC1w : Env := { envBase with getMissing := MissingResult.ok [] }

/-- Witness for the amended C1 at a concrete input. -/
theorem repair_unnecessary_above_threshold_witness :
    envC1w.getPointer = GetPtrResult.ok ptr0 ∧
    ptr0.ptrType = PointerType.remote ∧
    isExpired ptr0.expirationDate envC1w.now = false ∧
    envC1w.redundancyOK = true ∧
    envC1w.getMissing = MissingResult.ok [] ∧
    ¬ (numHealthyOf ptr0.pieces [] < ptr0.redundancy.minReq) ∧
    numHealthyOf ptr0.pieces [] > effectiveThreshold cfg0 ptr0.redundancy ∧
    repair cfg0 envC1w "a/b/c" =
      RepairResult.exit true RepairErr.noErr Calls.none :=
  ⟨rfl, rfl, rfl, rfl, rfl, by decide, by decide,
    repair_unnecessary_above_threshold cfg0 envC1w "a/b/c" ptr0 []
      rfl rfl rfl rfl rfl (by decide) (by decide)⟩

/-! ### C4 -/

/-- C4: for a fetched remote unexpired pointer with numHealthy below
minRequired, Repair returns (true, irreparableError) carrying available
= numHealthy and required = minRequired, and performs no upload and no
commit (no call beyond the fetch and the missing-piece query). -/
theorem repair_irreparable_before_transfer (cfg : RepairerConfig) (env : Env)
    (path : String) (ptr : Pointer) (missing : List Int)
    (h1 : env.getPointer = GetPtrResult.ok ptr)
    (h2 : ptr.ptrType = PointerType.remote)
    (h3 : isExpired ptr.expirationDate env.now = false)
    (h4 : env.redundancyOK = true)
    (h5 : env.getMissing = MissingResult.ok missing)
    (h6 : numHealthyOf ptr.pieces missing < ptr.redundancy.minReq) :
    repair cfg env path = RepairResult.exit true
      (RepairErr.irreparable (numHealthyOf ptr.pieces missing)
        ptr.redundancy.minReq) Calls.none := by
  rw [repair_reach_decide cfg env path ptr missing h1 h2 h3 h4 h5]
  unfold repairDecide
  simp [h6]

/-- An environment where all three pieces are missing. -/
def envC4 : Env := { envBase with getMissing := MissingResult.ok [0, 1, 2] }

/-- Witness for C4 at a concrete input. -/
theorem repair_irreparable_before_transfer_witness :
    envC4.getPointer = GetPtrResult.ok ptr0 ∧
    ptr0.ptrType = PointerType.remote ∧
    isExpired ptr0.expirationDate envC4.now = false ∧
    envC4.redundancyOK = true ∧
    envC4.getMissing = MissingResult.ok [0, 1, 2] ∧
    numHealthyOf ptr0.pieces [0, 1, 2] < ptr0.redundancy.minReq ∧
    repair cfg0 envC4 "a/b/c" = RepairResult.exit true
      (RepairErr.irreparable (numHealthyOf ptr0.pieces [0, 1, 2])
        ptr0.redundancy.minReq) Calls.none :=
  ⟨rfl, rfl, rfl, rfl, rfl, by decide,
    repair_irreparable_before_transfer cfg0 envC4 "a/b/c" ptr0 [0, 1, 2]
      rfl rfl rfl rfl rfl (by decide)⟩

/-! ### C5 -/

/-- C5: once the transfer phase is reached, an irreparable download
error returns (true, that irreparable error); any other download error
returns (true, reconstruction error); a download success followed by an
upload failure returns (false, put error) so the segment stays queued. -/
theorem repair_transfer_error_classes (cfg : RepairerConfig) (env : Env)
    (path : String) (ptr : Pointer) (missing : List Int) (b : String)
    (h1 : env.getPointer = GetPtrResult.ok ptr)
    (h2 : ptr.ptrType = PointerType.remote)
    (h3 : isExpired ptr.expirationDate env.now = false)
    (h4 : env.redundancyOK = true)
    (h5 : env.getMissing = MissingResult.ok missing)
    (h6 : ¬ (numHealthyOf ptr.pieces missing < ptr.redundancy.minReq))
    (h7 : ¬ (numHealthyOf ptr.pieces missing >
      effectiveThreshold cfg ptr.redundancy))
    (h8 : createBucketID path = some b)
    (h9 : env.getLimitsOK = true)
    (h10 : env.findNodesOK = true)
    (h11 : env.putLimitsOK = true) :
    (∀ a r, env.ecGetErr = some (ECGetErr.irreparable a r) →
      (repair cfg env path).shouldDelete = true ∧
      (repair cfg env path).err = RepairErr.irreparable a r) ∧
    (env.ecGetErr = some ECGetErr.otherErr →
      (repair cfg env path).shouldDelete = true ∧
      (repair cfg env path).err = RepairErr.reconstructFail) ∧
    (env.ecGetErr = Option.none → env.ecRepair = ECRepairResult.failed →
      (repair cfg env path).shouldDelete = false ∧
      (repair cfg env path).err = RepairErr.repairPut) := by
  rw [repair_reach_decide cfg env path ptr missing h1 h2 h3 h4 h5,
    decide_reach_transfer cfg env path ptr missing b h6 h7 h8 h9 h10 h11]
  refine ⟨?_, ?_, ?_⟩
  · intro a r hge
    simp [repairTransfer, hge, RepairResult.exit]
  · intro hge
    simp [repairTransfer, hge, RepairResult.exit]
  · intro hge hrep
    simp [repairTransfer, hge, hrep, RepairResult.exit]

/-- An environment whose download reports the irreparable condition. -/
def envC5 : Env := { envBase with ecGetErr := some (ECGetErr.irreparable 0 1) }

/-- Witness for C5 at a concrete input. -/
theorem repair_transfer_error_classes_witness :
    envC5.getPointer = GetPtrResult.ok ptr0 ∧
    ¬ (numHealthyOf ptr0.pieces [0] < ptr0.redundancy.minReq) ∧
    ¬ (numHealthyOf ptr0.pieces [0] >
      effectiveThreshold cfg0 ptr0.redundancy) ∧
    createBucketID "a/b/c" = some "a/c" ∧
    ((∀ a r, envC5.ecGetErr = some (ECGetErr.irreparable a r) →
      (repair cfg0 envC5 "a/b/c").shouldDelete = true ∧
      (repair cfg0 envC5 "a/b/c").err = RepairErr.irreparable a r) ∧
    (envC5.ecGetErr = some ECGetErr.otherErr →
      (repair cfg0 envC5 "a/b/c").shouldDelete = true ∧
      (repair cfg0 envC5 "a/b/c").err = RepairErr.reconstructFail) ∧
    (envC5.ecGetErr = Option.none → envC5.ecRepair = ECRepairResult.failed →
      (repair cfg0 envC5 "a/b/c").shouldDelete = false ∧
      (repair cfg0 envC5 "a/b/c").err = RepairErr.repairPut)) :=
  ⟨rfl, by decide, by decide, by decide,
    repair_transfer_error_classes cfg0 envC5 "a/b/c" ptr0 [0] "a/c"
      rfl rfl rfl rfl rfl (by decide) (by decide) (by decide)
      rfl rfl rfl⟩

/-! ### C6 -/

/-- C6: when the uploads succeed but healthyAfterRepair is at or under
the scheme repair threshold, the attempt is classified failed for
monitoring only: the commit still proceeds and, when it succeeds,
Repair still returns (true, nil). -/
theorem repair_failed_class_still_commits (cfg : RepairerConfig) (env : Env)
    (path : String) (ptr : Pointer) (missing : List Int) (b : String)
    (nodes : List (Option (Nat × Nat)))
    (h1 : env.getPointer = GetPtrResult.ok ptr)
    (h2 : ptr.ptrType = PointerType.remote)
    (h3 : isExpired ptr.expirationDate env.now = false)
    (h4 : env.redundancyOK = true)
    (h5 : env.getMissing = MissingResult.ok missing)
    (h6 : ¬ (numHealthyOf ptr.pieces missing < ptr.redundancy.minReq))
    (h7 : ¬ (numHealthyOf ptr.pieces missing >
      effectiveThreshold cfg ptr.redundancy))
    (h8 : createBucketID path = some b)
    (h9 : env.getLimitsOK = true)
    (h10 : env.findNodesOK = true)
    (h11 : env.putLimitsOK = true)
    (h12 : env.ecGetErr = Option.none)
    (h13 : env.ecRepair = ECRepairResult.ok nodes)
    (h14 : env.updateOK = true)
    (hfail : ((healthyOf ptr.pieces missing).length : Int) +
      ((mkRepaired nodes).length : Int) ≤ ptr.redundancy.repairThreshold) :
    (repair cfg env path).outcome = some RepairClass.failed ∧
    (repair cfg env path).shouldDelete = true ∧
    (repair cfg env path).err = RepairErr.noErr ∧
    (repair cfg env path).calls.updatePieces = true ∧
    (repair cfg env path).committed =
      some { ptr with lastRepaired := env.now,
                      repairCount := ptr.repairCount + 1 } := by
  rw [repair_reach_decide cfg env path ptr missing h1 h2 h3 h4 h5,
    decide_reach_transfer cfg env path ptr missing b h6 h7 h8 h9 h10 h11]
  simp [repairTransfer, h12, h13, h14, classify, hfail, Calls.upToUpdate]

/-- An environment with two missing pieces and one successful upload, so
healthyAfterRepair stays at the repair threshold. -/
def envC6 : Env := { envBase with getMissing := MissingResult.ok [0, 1] }

/-- Witness for C6 at a concrete input. -/
theorem repair_failed_class_still_commits_witness :
    envC6.getMissing = MissingResult.ok [0, 1] ∧
    ((healthyOf ptr0.pieces [0, 1]).length : Int) +
      ((mkRepaired [some (20, 200), Option.none, Option.none]).length : Int) ≤
      ptr0.redundancy.repairThreshold ∧
    (repair cfg0 envC6 "a/b/c").outcome = some RepairClass.failed ∧
    (repair cfg0 envC6 "a/b/c").shouldDelete = true ∧
    (repair cfg0 envC6 "a/b/c").err = RepairErr.noErr ∧
    (repair cfg0 envC6 "a/b/c").calls.updatePieces = true ∧
    (repair cfg0 envC6 "a/b/c").committed =
      some { ptr0 with lastRepaired := envC6.now,
                       repairCount := ptr0.repairCount + 1 } :=
  ⟨rfl, by decide,
    repair_failed_class_still_commits cfg0 envC6 "a/b/c" ptr0 [0, 1] "a/c"
      [some (20, 200), Option.none, Option.none]
      rfl rfl rfl rfl rfl (by decide) (by decide) (by decide)
      rfl rfl rfl rfl rfl rfl (by decide)⟩

/-! ### C7 -/

/-- Every branch of the transfer phase reports the request count it was
entered with. -/
theorem repairTransfer_requested (env : Env) (ptr : Pointer)
    (hp up : List RemotePiece) (c : Int) :
    (repairTransfer env ptr hp up c).requested = some c := by
  unfold repairTransfer
  split
  · simp [RepairResult.exit]
  · simp [RepairResult.exit]
  · split
    · simp [RepairResult.exit]
    · split <;> simp

/-- With a nonnegative excess fraction NewSegmentRepairer stores the
multiplier 1 + excess. -/
theorem NewSegmentRepairer_multiplier (excess : ℚ) (o : Int)
    (h : 0 ≤ excess) :
    (NewSegmentRepairer excess o).multiplierOptimalThreshold = 1 + excess := by
  unfold NewSegmentRepairer
  simp [not_lt.mpr h]

/-- C7: on every attempt that reaches the replacement-node request, the
requested node count is the ceiling of optimalThreshold times
(1 + excess fraction), minus the number of healthy pieces. -/
theorem repair_request_count (excess : ℚ) (override : Int) (env : Env)
    (path : String) (ptr : Pointer) (missing : List Int) (b : String)
    (hexcess : 0 ≤ excess)
    (h1 : env.getPointer = GetPtrResult.ok ptr)
    (h2 : ptr.ptrType = PointerType.remote)
    (h3 : isExpired ptr.expirationDate env.now = false)
    (h4 : env.redundancyOK = true)
    (h5 : env.getMissing = MissingResult.ok missing)
    (h6 : ¬ (numHealthyOf ptr.pieces missing < ptr.redundancy.minReq))
    (h7 : ¬ (numHealthyOf ptr.pieces missing >
      effectiveThreshold (NewSegmentRepairer excess override)
        ptr.redundancy))
    (h8 : createBucketID path = some b)
    (h9 : env.getLimitsOK = true) :
    (repair (NewSegmentRepairer excess override) env path).requested =
      some (⌈(env.optimalThreshold : ℚ) * (1 + excess)⌉
        - ((healthyOf ptr.pieces missing).length : Int)) := by
  rw [repair_reach_decide (NewSegmentRepairer excess override) env path ptr
    missing h1 h2 h3 h4 h5]
  unfold repairDecide
  rw [h8]
  simp only [h6, h7, h9, NewSegmentRepairer_multiplier excess override hexcess]
  repeat' split <;> simp_all [RepairResult.exit, repairTransfer_requested]

/-- Witness for C7 at a concrete input. -/
theorem repair_request_count_witness :
    (0 : ℚ) ≤ 1 ∧
    envBase.getLimitsOK = true ∧
    (repair (NewSegmentRepairer 1 0) envBase "a/b/c").requested =
      some (⌈(envBase.optimalThreshold : ℚ) * (1 + 1)⌉
        - ((healthyOf ptr0.pieces [0]).length : Int)) :=
  ⟨zero_le_one, rfl,
    repair_request_count 1 0 envBase "a/b/c" ptr0 [0] "a/c" zero_le_one
      rfl rfl rfl rfl rfl (by decide) (by decide) (by decide) rfl⟩

/-! ### C2 and C3 -/

/-- Whatever the commit outcome, the transfer phase computes toRemove
from the redundancy, the post-repair health and the three piece lists. -/
theorem repairTransfer_toRemove (env : Env) (ptr : Pointer)
    (hp up : List RemotePiece) (c : Int) (nodes : List (Option (Nat × Nat)))
    (h12 : env.ecGetErr = Option.none)
    (h13 : env.ecRepair = ECRepairResult.ok nodes) :
    (repairTransfer env ptr hp up c).toRemove =
      toRemoveOf ptr.redundancy
        ((hp.length : Int) + ((mkRepaired nodes).length : Int))
        up (mkRepaired nodes) env.ecGetFailed := by
  simp only [repairTransfer, h12, h13]
  split <;> rfl

/-- C2: after a full-success repair that commits, the removed pieces are
exactly the original unhealthy pieces plus the pieces that failed
integrity verification during download; provided the newly uploaded
piece numbers avoid the failed ones (the put order limits only target
piece numbers absent from the download set), no originally-healthy piece
whose number is among the repaired piece numbers is removed. -/
theorem repair_full_success_toRemove (cfg : RepairerConfig) (env : Env)
    (path : String) (ptr : Pointer) (missing : List Int) (b : String)
    (nodes : List (Option (Nat × Nat)))
    (h1 : env.getPointer = GetPtrResult.ok ptr)
    (h2 : ptr.ptrType = PointerType.remote)
    (h3 : isExpired ptr.expirationDate env.now = false)
    (h4 : env.redundancyOK = true)
    (h5 : env.getMissing = MissingResult.ok missing)
    (h6 : ¬ (numHealthyOf ptr.pieces missing < ptr.redundancy.minReq))
    (h7 : ¬ (numHealthyOf ptr.pieces missing >
      effectiveThreshold cfg ptr.redundancy))
    (h8 : createBucketID path = some b)
    (h9 : env.getLimitsOK = true)
    (h10 : env.findNodesOK = true)
    (h11 : env.putLimitsOK = true)
    (h12 : env.ecGetErr = Option.none)
    (h13 : env.ecRepair = ECRepairResult.ok nodes)
    (h14 : env.updateOK = true)
    (hfull : ((healthyOf ptr.pieces missing).length : Int) +
      ((mkRepaired nodes).length : Int) ≥ ptr.redundancy.successThreshold)
    (hdisj : ∀ q ∈ env.ecGetFailed,
      (repairedNums (mkRepaired nodes)).contains q.pieceNum = false) :
    (repair cfg env path).toRemove =
      unhealthyOf ptr.pieces missing ++ env.ecGetFailed ∧
    ∀ p ∈ healthyOf ptr.pieces missing,
      (repairedNums (mkRepaired nodes)).contains p.pieceNum = true →
      p ∉ (repair cfg env path).toRemove := by
  have ht : (repair cfg env path).toRemove =
      unhealthyOf ptr.pieces missing ++ env.ecGetFailed := by
    rw [repair_reach_decide cfg env path ptr missing h1 h2 h3 h4 h5,
      decide_reach_transfer cfg env path ptr missing b h6 h7 h8 h9 h10 h11,
      repairTransfer_toRemove env ptr _ _ _ nodes h12 h13]
    unfold toRemoveOf
    rw [if_pos hfull]
  refine ⟨ht, ?_⟩
  intro p hp hcont hmem
  rw [ht] at hmem
  rcases List.mem_append.mp hmem with hm | hm
  · have hh := (List.mem_filter.mp hp).2
    have hu := (List.mem_filter.mp hm).2
    rw [hu] at hh
    exact absurd hh (by decide)
  · have hd := hdisj p hm
    rw [hcont] at hd
    exact absurd hd (by decide)

/-- Witness for C2 at a concrete input. -/
theorem repair_full_success_toRemove_witness :
    (((healthyOf ptr0.pieces [0]).length : Int) +
      ((mkRepaired [some (20, 200), Option.none, Option.none]).length : Int) ≥
        ptr0.redundancy.successThreshold) ∧
    (repair cfg0 envBase "a/b/c").toRemove =
      unhealthyOf ptr0.pieces [0] ++ envBase.ecGetFailed :=
  ⟨by decide,
    (repair_full_success_toRemove cfg0 envBase "a/b/c" ptr0 [0] "a/c"
      [some (20, 200), Option.none, Option.none]
      rfl rfl rfl rfl rfl (by decide) (by decide) (by decide)
      rfl rfl rfl rfl rfl rfl (by decide) (by decide)).1⟩

/-- C3: after a partial repair that commits, toRemove keeps exactly the
unhealthy pieces whose number was actually re-uploaded (plus the
integrity-failed downloads, which are classified healthy): every
unhealthy piece whose number is not among the repaired piece numbers
stays out of toRemove and so remains in the committed pointer. -/
theorem repair_below_success_toRemove (cfg : RepairerConfig) (env : Env)
    (path : String) (ptr : Pointer) (missing : List Int) (b : String)
    (nodes : List (Option (Nat × Nat)))
    (h1 : env.getPointer = GetPtrResult.ok ptr)
    (h2 : ptr.ptrType = PointerType.remote)
    (h3 : isExpired ptr.expirationDate env.now = false)
    (h4 : env.redundancyOK = true)
    (h5 : env.getMissing = MissingResult.ok missing)
    (h6 : ¬ (numHealthyOf ptr.pieces missing < ptr.redundancy.minReq))
    (h7 : ¬ (numHealthyOf ptr.pieces missing >
      effectiveThreshold cfg ptr.redundancy))
    (h8 : createBucketID path = some b)
    (h9 : env.getLimitsOK = true)
    (h10 : env.findNodesOK = true)
    (h11 : env.putLimitsOK = true)
    (h12 : env.ecGetErr = Option.none)
    (h13 : env.ecRepair = ECRepairResult.ok nodes)
    (h14 : env.updateOK = true)
    (hpart : ((healthyOf ptr.pieces missing).length : Int) +
      ((mkRepaired nodes).length : Int) < ptr.redundancy.successThreshold)
    (hfailh : ∀ q ∈ env.ecGetFailed, sliceToSet missing q.pieceNum = false) :
    (repair cfg env path).toRemove =
      (unhealthyOf ptr.pieces missing).filter
        (fun p => (repairedNums (mkRepaired nodes)).contains p.pieceNum)
      ++ env.ecGetFailed ∧
    ∀ p ∈ unhealthyOf ptr.pieces missing,
      (p ∈ (repair cfg env path).toRemove ↔
        (repairedNums (mkRepaired nodes)).contains p.pieceNum = true) := by
  have ht : (repair cfg env path).toRemove =
      (unhealthyOf ptr.pieces missing).filter
        (fun p => (repairedNums (mkRepaired nodes)).contains p.pieceNum)
      ++ env.ecGetFailed := by
    rw [repair_reach_decide cfg env path ptr missing h1 h2 h3 h4 h5,
      decide_reach_transfer cfg env path ptr missing b h6 h7 h8 h9 h10 h11,
      repairTransfer_toRemove env ptr _ _ _ nodes h12 h13]
    unfold toRemoveOf
    rw [if_neg (not_le.mpr hpart)]
  refine ⟨ht, ?_⟩
  intro p hp
  rw [ht]
  constructor
  · intro hmem
    rcases List.mem_append.mp hmem with hm | hm
    · exact (List.mem_filter.mp hm).2
    · have hu := (List.mem_filter.mp hp).2
      have hf := hfailh p hm
      rw [hu] at hf
      exact absurd hf (by decide)
  · intro hcont
    exact List.mem_append.mpr (Or.inl (List.mem_filter.mpr ⟨hp, hcont⟩))

/-- Witness for C3 at a concrete input. -/
theorem repair_below_success_toRemove_witness :
    (((healthyOf ptr0.pieces [0, 1]).length : Int) +
      ((mkRepaired [some (20, 200), Option.none, Option.none]).length : Int) <
        ptr0.redundancy.successThreshold) ∧
    (repair cfg0 envC6 "a/b/c").toRemove =
      (unhealthyOf ptr0.pieces [0, 1]).filter
        (fun p => (repairedNums
          (mkRepaired [some (20, 200), Option.none, Option.none])).contains
            p.pieceNum)
      ++ envC6.ecGetFailed :=
  ⟨by decide,
    (repair_below_success_toRemove cfg0 envC6 "a/b/c" ptr0 [0, 1] "a/c"
      [some (20, 200), Option.none, Option.none]
      rfl rfl rfl rfl rfl (by decide) (by decide) (by decide)
      rfl rfl rfl rfl rfl rfl (by decide) (by decide)).1⟩

/-! ### C8 -/

/-- Any pointer recorded by a successful commit of the transfer phase is
the fetched pointer with lastRepaired set to now and repairCount bumped. -/
theorem repairTransfer_committed (env : Env) (ptr : Pointer)
    (hp up : List RemotePiece) (c : Int) (p : Pointer)
    (h : (repairTransfer env ptr hp up c).committed = some p) :
    p = { ptr with lastRepaired := env.now,
                   repairCount := ptr.repairCount + 1 } := by
  unfold repairTransfer at h
  dsimp only at h
  repeat' split at h
  all_goals simp_all [RepairResult.exit]

/-- Any pointer recorded by a successful commit of the decision phase is
the fetched pointer with lastRepaired set to now and repairCount bumped. -/
theorem repairDecide_committed (cfg : RepairerConfig) (env : Env)
    (path : String) (ptr : Pointer) (missing : List Int) (p : Pointer)
    (h : (repairDecide cfg env path ptr missing).committed = some p) :
    p = { ptr with lastRepaired := env.now,
                   repairCount := ptr.repairCount + 1 } := by
  unfold repairDecide at h
  dsimp only at h
  repeat' split at h
  all_goals
    first
      | exact repairTransfer_committed _ _ _ _ _ _ h
      | simp_all [RepairResult.exit]

/-- C8: whenever an execution of Repair commits (UpdatePieces is called
and succeeds, recorded in the committed field), the committed pointer
has a repairCount strictly greater than the fetched pointer's and its
lastRepairedTime set to the commit time; any execution that does not
commit records no committed pointer and so leaves the stored pointer
untouched, the only store mutation in the model being a successful
UpdatePieces call. -/
theorem repair_commit_bumps_pointer (cfg : RepairerConfig) (env : Env)
    (path : String) (ptr : Pointer) (p : Pointer)
    (h1 : env.getPointer = GetPtrResult.ok ptr)
    (h : (repair cfg env path).committed = some p) :
    ptr.repairCount < p.repairCount ∧ p.lastRepaired = env.now := by
  unfold repair at h
  rw [h1] at h
  dsimp only at h
  repeat' split at h
  all_goals
    first
      | (have hp := repairDecide_committed _ _ _ _ _ _ h
         subst hp
         exact ⟨lt_add_one _, rfl⟩)
      | simp_all [RepairResult.exit]

/-- The pointer ptr0 after the commit bump at time 50. -/
def ptr0c : Pointer := { ptr0 with lastRepaired := 50, repairCount := 5 }

/-- Witness for C8 at a concrete input. -/
theorem repair_commit_bumps_pointer_witness :
    envBase.getPointer = GetPtrResult.ok ptr0 ∧
    (repair cfg0 envBase "a/b/c").committed = some ptr0c ∧
    (ptr0.repairCount < ptr0c.repairCount ∧
      ptr0c.lastRepaired = envBase.now) :=
  ⟨rfl, by decide,
    repair_commit_bumps_pointer cfg0 envBase "a/b/c" ptr0 ptr0c
      rfl (by decide)⟩

/-! ### C9 -/

/-- The two-branch segment-age computation equals now minus the later of
creation and last-repair time. -/
theorem segmentAgeOf_eq_max (c l n : Int) :
    segmentAgeOf c l n = n - max c l := by
  unfold segmentAgeOf
  split
  · rw [max_eq_right (le_of_lt (by assumption))]
  · rw [max_eq_left (not_lt.mp (by assumption))]

/-- The age recorded by the transfer phase is the branch computation on
the fetched pointer's timestamps. -/
theorem repairTransfer_age (env : Env) (ptr : Pointer)
    (hp up : List RemotePiece) (c : Int) (a : Int)
    (h : (repairTransfer env ptr hp up c).age = some a) :
    a = segmentAgeOf ptr.creationDate ptr.lastRepaired env.now := by
  unfold repairTransfer at h
  dsimp only at h
  repeat' split at h
  all_goals simp_all [RepairResult.exit]

/-- The age recorded by the decision phase is the branch computation on
the fetched pointer's timestamps. -/
theorem repairDecide_age (cfg : RepairerConfig) (env : Env)
    (path : String) (ptr : Pointer) (missing : List Int) (a : Int)
    (h : (repairDecide cfg env path ptr missing).age = some a) :
    a = segmentAgeOf ptr.creationDate ptr.lastRepaired env.now := by
  unfold repairDecide at h
  dsimp only at h
  repeat' split at h
  all_goals
    first
      | exact repairTransfer_age _ _ _ _ _ _ h
      | simp_all [RepairResult.exit]

/-- C9: on every execution of Repair that reaches the commit step (the
only point where an age is recorded), the recorded segment age equals
now minus the later of lastRepairedTime and creationTime. -/
theorem repair_age_eq_now_sub_max (cfg : RepairerConfig) (env : Env)
    (path : String) (ptr : Pointer) (a : Int)
    (h1 : env.getPointer = GetPtrResult.ok ptr)
    (h : (repair cfg env path).age = some a) :
    a = env.now - max ptr.creationDate ptr.lastRepaired := by
  unfold repair at h
  rw [h1] at h
  dsimp only at h
  repeat' split at h
  all_goals
    first
      | (rw [repairDecide_age _ _ _ _ _ _ h]
         exact segmentAgeOf_eq_max _ _ _)
      | simp_all [RepairResult.exit]

/-- Witness for C9 at a concrete input. -/
theorem repair_age_eq_now_sub_max_witness :
    envBase.getPointer = GetPtrResult.ok ptr0 ∧
    (repair cfg0 envBase "a/b/c").age = some 45 ∧
    (45 : Int) = envBase.now - max ptr0.creationDate ptr0.lastRepaired :=
  ⟨rfl, by decide,
    repair_age_eq_now_sub_max cfg0 envBase "a/b/c" ptr0 45 rfl (by decide)⟩

/-! ### C10 -/

/-- C10: deriving the authorization scope fails exactly when the path
splits into fewer than three components, in which case Repair (having
got that far) returns (true, err); with three or more components it
yields the join of the first and third components, ignoring the second. -/
theorem createBucketID_spec (path : String) :
    (createBucketID path = Option.none ↔ (splitPath path).length < 3) ∧
    (3 ≤ (splitPath path).length →
      createBucketID path =
        some (joinPaths ((splitPath path).getD 0 "")
          ((splitPath path).getD 2 ""))) ∧
    (∀ cfg env ptr missing,
      env.getPointer = GetPtrResult.ok ptr →
      ptr.ptrType = PointerType.remote →
      isExpired ptr.expirationDate env.now = false →
      env.redundancyOK = true →
      env.getMissing = MissingResult.ok missing →
      ¬ (numHealthyOf ptr.pieces missing < ptr.redundancy.minReq) →
      ¬ (numHealthyOf ptr.pieces missing >
        effectiveThreshold cfg ptr.redundancy) →
      createBucketID path = Option.none →
      repair cfg env path =
        RepairResult.exit true RepairErr.invalidRepair Calls.none) := by
  refine ⟨?_, ?_, ?_⟩
  · unfold createBucketID
    dsimp only
    split
    · simp_all
    · simp_all
  · intro h
    unfold createBucketID
    dsimp only
    rw [if_neg (not_lt.mpr h)]
  · intro cfg env ptr missing h1 h2 h3 h4 h5 h6 h7 hb
    rw [repair_reach_decide cfg env path ptr missing h1 h2 h3 h4 h5]
    unfold repairDecide
    rw [hb]
    simp [h6, h7]

/-- Witness for C10: a two-component path fails and aborts Repair with
(true, err); a three-component path yields components 0 and 2 joined. -/
theorem createBucketID_spec_witness :
    createBucketID "ab" = Option.none ∧
    repair cfg0 envBase "ab" =
      RepairResult.exit true RepairErr.invalidRepair Calls.none ∧
    3 ≤ (splitPath "a/b/c").length ∧
    createBucketID "a/b/c" =
      some (joinPaths ((splitPath "a/b/c").getD 0 "")
        ((splitPath "a/b/c").getD 2 "")) :=
  ⟨(createBucketID_spec "ab").1.mpr (by decide),
    (createBucketID_spec "ab").2.2 cfg0 envBase ptr0 [0]
      rfl rfl rfl rfl rfl (by decide) (by decide)
      ((createBucketID_spec "ab").1.mpr (by decide)),
    by decide,
    (createBucketID_spec "a/b/c").2.1 (by decide)⟩

end Repairer
